import Mathlib

/-!
Verification development for the durable task scheduler in
`src/task_manager.py` (with `src/utils.py` and `src/models/models.py`).

The scheduler is shallowly embedded: the persistent store (SQLite tables
`application`, `log`, `profile`) becomes explicit list-valued state, the
worker's outcome handling and the manager's polling cycle become pure
functions of that state, and `datetime.utcnow()` becomes an explicit `now`
parameter (time modelled as `Nat` ticks).
-/

namespace TaskManager

/-- Row of the `profile` table (`models.Profile`); only its existence is read
by the scheduler (`session.query(_Profile).first()`). -/
structure Profile where
  id : Nat
deriving Repr, DecidableEq

/-- Row of the `application` table (`models.Application`), restricted to the
columns the scheduler reads or writes. -/
structure Application where
  id : Nat
  job_url : String
  status : String
  priority : Int
  timestamp_started : Nat
  timestamp_ended : Option Nat
  last_attempted_at : Option Nat
  retry_count : Nat
  max_retries : Nat
  error_details : Option String
  last_log_message : Option String
  review_screenshot_path : Option String
deriving Repr, DecidableEq

/-- Row of the `log` table (`models.Log`): the append-only Event records. -/
structure Log where
  application_id : Nat
  timestamp : Nat
  level : String
  message : String
  screenshot_path : Option String
deriving Repr, DecidableEq

/-- The relational store: `application`, `log` and `profile` tables. -/
structure JobStore where
  applications : List Application
  logs : List Log
  profiles : List Profile
deriving Repr, DecidableEq

/-- Constant `MAX_WORKERS = 4` from `task_manager.py`. -/
def MAX_WORKERS : Nat := 4

/-- Constant `TASK_QUEUE_MAX_SIZE = MAX_WORKERS * 2` from `task_manager.py`. -/
def TASK_QUEUE_MAX_SIZE : Nat := MAX_WORKERS * 2

/-- The dict returned by `JobAutomator.run_automation()`, as consumed by
`worker_function` via `.get(...)` lookups: every key is optional. -/
structure AutomationResult where
  status : Option String
  error_message : Option String
  details : Option String
  message : Option String
  screenshot_path : Option String
deriving Repr, DecidableEq

/-- Behaviour of one adapter invocation: `run_automation()` either returns a
result dict or raises an exception (modelled by its message). -/
inductive AdapterBehavior where
  | returns (r : AutomationResult)
  | raises (e : String)
deriving Repr, DecidableEq

/-- Python truthiness-based `a or b` on optional strings, as in
`automation_result.get("error_message") or automation_result.get("details")`:
`None` and `""` are falsy. -/
def pyOr (a b : Option String) : Option String :=
  match a with
  | some s => if s = "" then b else some s
  | none => b

/-- `automation_result.get("status", "unknown_completion")` (line 144). -/
def resultStatus (r : AutomationResult) : String :=
  r.status.getD "unknown_completion"

/-- The DB side of `utils.log_event`: appends one `Log` row and refreshes the
owning application's `last_log_message` to `"[LEVEL] message"`. (All scheduler
call sites already pass the level in upper case, so `.upper()` is identity.) -/
def log_event (application_id : Nat) (level message : String)
    (screenshot_path : Option String) (now : Nat) (store : JobStore) : JobStore :=
  { store with
    logs := store.logs ++
      [{ application_id := application_id, timestamp := now, level := level,
         message := message, screenshot_path := screenshot_path }],
    applications := store.applications.map fun a =>
      if a.id = application_id then
        { a with last_log_message := some ("[" ++ level ++ "] " ++ message) }
      else a }

/-- In-place mutation of the application row with the given id, as performed
through the SQLAlchemy session. -/
def updateApplication (store : JobStore) (application_id : Nat)
    (f : Application → Application) : JobStore :=
  { store with
    applications := store.applications.map fun a =>
      if a.id = application_id then f a else a }

/-- Lines 143-168 of `worker_function`: store the adapter result's fields on
the row, stamp `timestamp_ended`, then apply the retry decision for a
reported `"failed"` status. The branch condition reads `retry_count` before
the increment, exactly as the source does. -/
def processResult (now : Nat) (r : AutomationResult) (application : Application) :
    Application :=
  let updated : Application :=
    { application with
      status := resultStatus r,
      error_details := pyOr r.error_message r.details,
      last_log_message := some ("[INFO] Worker finished. Result: " ++ resultStatus r),
      review_screenshot_path :=
        match r.screenshot_path with
        | some p => if p = "" then application.review_screenshot_path else some p
        | none => application.review_screenshot_path,
      timestamp_ended := some now }
  if resultStatus r = "failed" ∧ application.retry_count < application.max_retries then
    { updated with
      status := "queued",
      retry_count := application.retry_count + 1,
      last_log_message := some "[INFO] Task failed, queued for retry." }
  else if resultStatus r = "failed" then
    { updated with
      status := "failed_final",
      last_log_message := some "[ERROR] Task failed permanently." }
  else updated

/-- Error message of the missing-profile branch (line 99). -/
def profileErrorMsg : String := "User profile not found. Cannot proceed."

/-- The body of `worker_function(application_id, db_uri)` acting on the store,
with the adapter invocation abstracted as an `AdapterBehavior`.

Faithfulness notes, keyed to `task_manager.py`:
* lines 74-87: a missing application row returns without touching the store
  (only file logging happens there);
* lines 89-96 (the "status is not processing, skip" re-check) are dead code
  in the source: they sit inside the `if not application:` block after an
  unconditional nested `return`, so they are omitted here;
* lines 97-106: missing profile commits `failed_final` without invoking the
  adapter and without touching `retry_count`;
* lines 122-172: the normal path logs INFO/DEBUG/DEBUG around the adapter
  call, applies `processResult`, logs the outcome event
  (WARN requeue / ERROR permanent / INFO completion), then a DEBUG end event;
* lines 174-201: an adapter exception rolls back the uncommitted attempt,
  re-fetches the row, writes `failed_worker_exception` plus the exception
  text, logs CRITICAL, then requeues (note: lines 192-193 increment
  `retry_count` twice) or commits `failed_final`.
Event message texts are abbreviated to stable prefixes of the source's
f-strings; levels and counts are exact. -/
def worker_function (now : Nat) (application_id : Nat) (behavior : AdapterBehavior)
    (store : JobStore) : JobStore :=
  match store.applications.find? (fun a => a.id = application_id) with
  | none => store
  | some _application =>
    match store.profiles with
    | [] =>
      let store := log_event application_id "ERROR" profileErrorMsg none now store
      updateApplication store application_id fun a =>
        { a with
          status := "failed_final",
          error_details := some profileErrorMsg,
          last_log_message := some ("[ERROR] " ++ profileErrorMsg),
          timestamp_ended := some now }
    | _profile :: _ =>
      let store := log_event application_id "INFO"
        "Initialized. About to call run_automation()." none now store
      let store := log_event application_id "DEBUG"
        "WorkerFunction BEFORE run_automation." none now store
      match behavior with
      | .raises e =>
        match store.applications.find? (fun a => a.id = application_id) with
        | none => store
        | some app_for_error =>
          let err_details := "uncaught exception: " ++ e
          let store := updateApplication store application_id fun a =>
            { a with
              status := "failed_worker_exception",
              error_details := some err_details,
              last_log_message := some ("[CRITICAL ERROR] " ++ err_details),
              timestamp_ended := some now }
          let store := log_event application_id "CRITICAL" err_details none now store
          if app_for_error.retry_count < app_for_error.max_retries then
            let store := updateApplication store application_id fun a =>
              { a with
                status := "queued",
                retry_count := a.retry_count + 1 + 1 }
            let store := log_event application_id "ERROR"
              ("Worker exception, requeuing for retry: " ++ e) none now store
            log_event application_id "DEBUG"
              "WorkerFunction EXCEPTION HANDLED." none now store
          else
            let store := updateApplication store application_id fun a =>
              { a with status := "failed_final" }
            let store := log_event application_id "ERROR"
              ("Worker exception, max retries reached, failing permanently: " ++ e)
              none now store
            log_event application_id "DEBUG"
              "WorkerFunction EXCEPTION HANDLED." none now store
      | .returns automation_result =>
        let store := log_event application_id "DEBUG"
          "WorkerFunction AFTER run_automation." none now store
        match store.applications.find? (fun a => a.id = application_id) with
        | none =>
          log_event application_id "CRITICAL"
            "Application disappeared during processing." none now store
        | some application =>
          let store := updateApplication store application_id
            (processResult now automation_result)
          let result_status := resultStatus automation_result
          let store :=
            if result_status = "failed" ∧
                application.retry_count < application.max_retries then
              log_event application_id "WARN"
                "Task failed, requeuing for retry." none now store
            else if result_status = "failed" then
              log_event application_id "ERROR"
                "Task failed permanently after retries." none now store
            else
              log_event application_id "INFO" "Task completed." none now store
          log_event application_id "DEBUG" "WorkerFunction END." none now store

/-- Strict priority-then-age comparison used to model the SQL
`ORDER BY priority ASC, timestamp_started ASC` of the manager's fetch. -/
def jobLT (a b : Application) : Bool :=
  decide (a.priority < b.priority) ||
    (a.priority == b.priority && decide (a.timestamp_started < b.timestamp_started))

/-- Stable insertion of a row into a list sorted by `jobLT`: the new row goes
before the first row it does not strictly exceed, so rows with equal
(priority, timestamp_started) keys keep their table order, matching SQLite's
rowid tie-breaking on the scan. -/
def insertSorted (a : Application) : List Application → List Application
  | [] => [a]
  | b :: rest => if jobLT b a then b :: insertSorted a rest else a :: b :: rest

/-- Stable sort by priority ascending then creation time ascending. -/
def sortJobs : List Application → List Application
  | [] => []
  | a :: rest => insertSorted a (sortJobs rest)

/-- SQL `LIMIT n` as evaluated by SQLite, which SQLAlchemy passes the Python
value of `MAX_WORKERS - task_queue.qsize()` into verbatim: a negative limit
means "no limit" (SQLite LIMIT clause semantics). -/
def sqliteLimit (n : Int) (xs : List Application) : List Application :=
  if n < 0 then xs else xs.take n.toNat

/-- State seen by one polling cycle of `worker_manager_process`: the store
plus the in-memory delivery channel (`multiprocessing.Queue` of application
ids, capacity `TASK_QUEUE_MAX_SIZE`). -/
structure ManagerState where
  store : JobStore
  queue : List Nat
deriving Repr, DecidableEq

/-- Lines 244-259 of `worker_manager_process`: for each fetched task, break
if the channel is full, otherwise log the DEBUG fetch event, mark the row
`processing` with a fresh `last_attempted_at`, push its id, and log the INFO
promotion event. -/
def queueTasks (now : Nat) : List Application → ManagerState → ManagerState
  | [], s => s
  | task :: rest, s =>
    if TASK_QUEUE_MAX_SIZE ≤ s.queue.length then s
    else
      let store := log_event task.id "DEBUG" "Manager: Fetched task from DB."
        none now s.store
      let store := updateApplication store task.id fun a =>
        { a with
          status := "processing",
          last_attempted_at := some now,
          last_log_message :=
            some "[INFO] Task picked up by manager, moving to in-memory queue." }
      let store := log_event task.id "INFO"
        "Manager: Task moved to in-memory queue. New status processing."
        none now store
      queueTasks now rest { store := store, queue := s.queue ++ [task.id] }

/-- Result set of the manager's fetch (lines 237-240) before the LIMIT:
rows with status `queued`, ordered by priority ascending then
`timestamp_started` ascending. -/
def eligibleJobs (s : ManagerState) : List Application :=
  sortJobs (s.store.applications.filter fun a => a.status = "queued")

/-- The fetched task list `tasks_to_queue` (lines 237-240), including the
`limit(MAX_WORKERS - task_queue.qsize())` clause, whose Python value can be
negative (SQLite then applies no limit). -/
def fetchedJobs (s : ManagerState) : List Application :=
  sqliteLimit ((MAX_WORKERS : Int) - s.queue.length) (eligibleJobs s)

/-- One polling cycle of `worker_manager_process` (lines 231-266).
The Python gate `active_processing_count < MAX_WORKERS * 1.5` compares an
integer with the float `6.0`; it is stated integrally as
`2 * active_processing_count < 3 * MAX_WORKERS`, which agrees with it on
every integer count. -/
def worker_manager_cycle (now : Nat) (s : ManagerState) : ManagerState :=
  let active_processing_count :=
    (s.store.applications.filter fun a => a.status = "processing").length
  if s.queue.length < TASK_QUEUE_MAX_SIZE ∧
      2 * active_processing_count < 3 * MAX_WORKERS then
    queueTasks now (fetchedJobs s) s
  else s

/-- The jobs a cycle actually claims: the fetched rows, cut off where the
channel (capacity `TASK_QUEUE_MAX_SIZE`) fills up mid-loop. -/
def claimedJobs (s : ManagerState) : List Application :=
  (fetchedJobs s).take (TASK_QUEUE_MAX_SIZE - s.queue.length)

/-- A child process handle, as far as the lifecycle controller observes it
(`Process.is_alive()`). -/
structure SchedulerProcess where
  alive : Bool
deriving Repr, DecidableEq

/-- The module-level globals of `task_manager.py` that
`start_task_processing_system` / `stop_task_processing_system` manage:
`_manager_process`, `_worker_pool`, `_task_queue`, `_stop_event`. -/
structure SystemState where
  manager_process : Option SchedulerProcess
  worker_pool : List SchedulerProcess
  task_queue : Option (List Nat)
  stop_event : Option Bool
deriving Repr, DecidableEq

/-- `start_task_processing_system` (lines 294-336): a no-op if the manager
process exists and is alive; otherwise creates a fresh queue and stop event
and starts one manager plus `MAX_WORKERS` workers. -/
def start_task_processing_system (s : SystemState) : SystemState :=
  if (s.manager_process.map (·.alive)).getD false then s
  else
    { manager_process := some { alive := true },
      worker_pool := List.replicate MAX_WORKERS { alive := true },
      task_queue := some [],
      stop_event := some false }

/-- `stop_task_processing_system` (lines 360-406): a no-op if `_stop_event`
or `_manager_process` is unset; otherwise signals, joins/terminates every
process, and resets all four globals. -/
def stop_task_processing_system (s : SystemState) : SystemState :=
  if s.stop_event = none ∨ s.manager_process = none then s
  else
    { manager_process := none,
      worker_pool := [],
      task_queue := none,
      stop_event := none }

/-- Whether the system counts as running for the start guard
(`_manager_process and _manager_process.is_alive()`). -/
def systemRunning (s : SystemState) : Prop :=
  (s.manager_process.map (·.alive)).getD false = true

instance (s : SystemState) : Decidable (systemRunning s) := by
  unfold systemRunning; infer_instance

/-! ## Derived notions and helper lemmas -/

/-- Point lookup of an application row by id (`session.query(Application).get`). -/
def getApp (store : JobStore) (application_id : Nat) : Option Application :=
  store.applications.find? fun a => a.id = application_id

/-- The closed status enumeration of the spec's state machine. -/
def statusEnum : List String := ["queued", "processing", "pending_review", "failed_final"]

/-- Net effect of one claim-loop iteration on the claimed row: mark
`processing`, stamp `last_attempted_at`, with the trailing INFO event's
refresh of `last_log_message`. -/
def markProcessing (now : Nat) (a : Application) : Application :=
  { a with
    status := "processing",
    last_attempted_at := some now,
    last_log_message :=
      some "[INFO] Manager: Task moved to in-memory queue. New status processing." }

/-- The two Event rows the manager appends for one claimed job. -/
def managerClaimLogs (now : Nat) (application_id : Nat) : List Log :=
  [{ application_id := application_id, timestamp := now, level := "DEBUG",
     message := "Manager: Fetched task from DB.", screenshot_path := none },
   { application_id := application_id, timestamp := now, level := "INFO",
     message := "Manager: Task moved to in-memory queue. New status processing.",
     screenshot_path := none }]

/-- An Event that records a worker outcome transition (the WARN requeue,
ERROR permanent-failure, or INFO completion event of lines 158/163/166). -/
def isOutcomeEvent (l : Log) : Bool :=
  l.message = "Task failed, requeuing for retry." ||
    l.message = "Task failed permanently after retries." ||
    l.message = "Task completed."

/-- An Event that records a promotion to `processing` (the manager's INFO
event of line 259). -/
def isPromotionEvent (l : Log) : Bool :=
  l.message = "Manager: Task moved to in-memory queue. New status processing."

/-- Net effect of `worker_function`'s outcome commit (returns path) on the
processed row: `processResult` followed by the trailing DEBUG event's
`last_log_message` refresh. -/
def workerResultUpdate (now : Nat) (r : AutomationResult) (app : Application) :
    Application :=
  { processResult now r app with
    last_log_message := some "[DEBUG] WorkerFunction END." }

/-- Net effect of the exception handler (lines 180-201) on the processed row;
note the two `retry_count += 1` statements of lines 192-193. -/
def workerExceptionUpdate (now : Nat) (e : String) (app : Application) : Application :=
  if app.retry_count < app.max_retries then
    { app with
      status := "queued",
      retry_count := app.retry_count + 1 + 1,
      error_details := some ("uncaught exception: " ++ e),
      last_log_message := some "[DEBUG] WorkerFunction EXCEPTION HANDLED.",
      timestamp_ended := some now }
  else
    { app with
      status := "failed_final",
      error_details := some ("uncaught exception: " ++ e),
      last_log_message := some "[DEBUG] WorkerFunction EXCEPTION HANDLED.",
      timestamp_ended := some now }

/-- The outcome Event appended by lines 154-168, as a function of the result
and the row's pre-increment retry state. -/
def outcomeLog (now application_id : Nat) (r : AutomationResult) (app : Application) :
    Log :=
  if resultStatus r = "failed" ∧ app.retry_count < app.max_retries then
    { application_id := application_id, timestamp := now, level := "WARN",
      message := "Task failed, requeuing for retry.", screenshot_path := none }
  else if resultStatus r = "failed" then
    { application_id := application_id, timestamp := now, level := "ERROR",
      message := "Task failed permanently after retries.", screenshot_path := none }
  else
    { application_id := application_id, timestamp := now, level := "INFO",
      message := "Task completed.", screenshot_path := none }

/-! ## Concrete fixtures for witnesses and counterexamples -/

/-- Fixture: a claimed application row mid-processing with the model's default
retry policy (`retry_count = 0`, `max_retries = 2`). -/
def sampleApp : Application :=
  { id := 1, job_url := "https://example.com/job", status := "processing",
    priority := 10, timestamp_started := 0, timestamp_ended := none,
    last_attempted_at := some 1, retry_count := 0, max_retries := 2,
    error_details := none, last_log_message := none,
    review_screenshot_path := none }

/-- Fixture: an adapter result reporting a domain failure. -/
def failedResult : AutomationResult :=
  { status := some "failed", error_message := some "Failed at login.",
    details := none, message := none, screenshot_path := none }

/-- Fixture: a store holding `sampleApp`, one profile, and no events yet. -/
def sampleStore : JobStore :=
  { applications := [sampleApp], logs := [], profiles := [{ id := 1 }] }

/-- Fixture: like `sampleStore` but the row has already consumed one retry. -/
def sampleStoreRetry1 : JobStore :=
  { applications := [{ sampleApp with retry_count := 1 }], logs := [],
    profiles := [{ id := 1 }] }

/-- Fixture: a manager state whose delivery channel is at capacity. -/
def backpressureState : ManagerState :=
  { store := { applications := [{ sampleApp with status := "queued" }],
               logs := [], profiles := [] },
    queue := [11, 12, 13, 14, 15, 16, 17, 18] }

/-- Fixture: the system-state snapshot right after a successful start. -/
def runningSystem : SystemState :=
  { manager_process := some { alive := true },
    worker_pool := List.replicate MAX_WORKERS { alive := true },
    task_queue := some [],
    stop_event := some false }

/-- Fixture: a store holding `sampleApp` but no profile row. -/
def noProfileStore : JobStore :=
  { applications := [sampleApp], logs := [], profiles := [] }

/-- Fixture: an adapter result dict with no "status" key at all. -/
def unknownResult : AutomationResult :=
  { status := none, error_message := none, details := none, message := none,
    screenshot_path := none }

/-- Fixture: an adapter result reporting `pending_review` with a screenshot. -/
def pendingResult : AutomationResult :=
  { status := some "pending_review", error_message := none, details := none,
    message := none, screenshot_path := some "shot.png" }

/-- Fixture: a manager state whose channel depth (5) exceeds `MAX_WORKERS`
while still passing the backpressure gate (5 < `TASK_QUEUE_MAX_SIZE`), with
one queued row in the store. -/
def overfullState : ManagerState :=
  { store := { applications := [{ sampleApp with status := "queued" }],
               logs := [], profiles := [] },
    queue := [11, 12, 13, 14, 15] }

/-- Fixture: an idle manager state with two queued rows of different
priorities and an empty channel. -/
def pollState : ManagerState :=
  { store := { applications :=
                 [{ sampleApp with id := 2, status := "queued", priority := 5 },
                  { sampleApp with id := 3, status := "queued", priority := 10 }],
               logs := [], profiles := [] },
    queue := [] }

lemma find?_update (l : List Application) (i : Nat) (f : Application → Application)
    (hf : ∀ a, (f a).id = a.id) :
    (l.map fun a => if a.id = i then f a else a).find? (fun a => a.id = i) =
      (l.find? fun a => a.id = i).map f := by
  induction l with
  | nil => rfl
  | cons a t ih =>
    by_cases h : a.id = i
    · rw [List.map_cons, if_pos h, List.find?_cons_of_pos _ (by simp [hf, h]),
        List.find?_cons_of_pos _ (by simp [h])]
      rfl
    · rw [List.map_cons, if_neg h, List.find?_cons_of_neg _ (by simp [h]),
        List.find?_cons_of_neg _ (by simp [h]), ih]

lemma getApp_log_event (store : JobStore) (i : Nat) (lvl msg : String)
    (sp : Option String) (now : Nat) :
    getApp (log_event i lvl msg sp now store) i =
      (getApp store i).map fun a =>
        { a with last_log_message := some ("[" ++ lvl ++ "] " ++ msg) } :=
  find?_update _ _ _ fun _ => rfl

lemma getApp_updateApplication (store : JobStore) (i : Nat)
    (f : Application → Application) (hf : ∀ a, (f a).id = a.id) :
    getApp (updateApplication store i f) i = (getApp store i).map f :=
  find?_update _ _ _ hf

lemma logs_log_event (store : JobStore) (i : Nat) (lvl msg : String)
    (sp : Option String) (now : Nat) :
    (log_event i lvl msg sp now store).logs =
      store.logs ++
        [{ application_id := i, timestamp := now, level := lvl,
           message := msg, screenshot_path := sp }] := rfl

lemma logs_updateApplication (store : JobStore) (i : Nat)
    (f : Application → Application) :
    (updateApplication store i f).logs = store.logs := rfl

lemma processResult_id (now : Nat) (r : AutomationResult) (a : Application) :
    (processResult now r a).id = a.id := by
  by_cases h1 : resultStatus r = "failed" ∧ a.retry_count < a.max_retries <;>
    by_cases h2 : resultStatus r = "failed"
  all_goals simp [processResult, h1, h2]
  all_goals split <;> rfl


lemma find?_log_event (store : JobStore) (i : Nat) (lvl msg : String)
    (sp : Option String) (now : Nat) :
    ((log_event i lvl msg sp now store).applications.find? fun a => a.id = i) =
      ((store.applications.find? fun a => a.id = i).map fun a =>
        { a with last_log_message := some ("[" ++ lvl ++ "] " ++ msg) }) :=
  find?_update _ _ _ fun _ => rfl

lemma find?_updateApplication (store : JobStore) (i : Nat)
    (f : Application → Application) (hf : ∀ a, (f a).id = a.id) :
    ((updateApplication store i f).applications.find? fun a => a.id = i) =
      ((store.applications.find? fun a => a.id = i).map f) :=
  find?_update _ _ _ hf

lemma worker_noProfile_eq (now application_id : Nat) (b : AdapterBehavior)
    (store : JobStore) (h : (getApp store application_id).isSome)
    (hp : store.profiles = []) :
    worker_function now application_id b store =
      { applications := store.applications.map fun a =>
          if a.id = application_id then
            { a with
              status := "failed_final",
              error_details := some profileErrorMsg,
              last_log_message := some ("[ERROR] " ++ profileErrorMsg),
              timestamp_ended := some now }
          else a,
        logs := store.logs ++
          [{ application_id := application_id, timestamp := now, level := "ERROR",
             message := profileErrorMsg, screenshot_path := none }],
        profiles := store.profiles } := by
  unfold getApp at h
  obtain ⟨app, happ⟩ := Option.isSome_iff_exists.mp h
  unfold worker_function
  rw [happ, hp]
  have hfun : ((fun a : Application =>
      if a.id = application_id then
        { a with
          status := "failed_final",
          error_details := some profileErrorMsg,
          last_log_message := some ("[ERROR] " ++ profileErrorMsg),
          timestamp_ended := some now }
      else a) ∘ (fun a : Application =>
      if a.id = application_id then
        { a with last_log_message := some ("[" ++ "ERROR" ++ "] " ++ profileErrorMsg) }
      else a)) = fun a : Application =>
      if a.id = application_id then
        { a with
          status := "failed_final",
          error_details := some profileErrorMsg,
          last_log_message := some ("[ERROR] " ++ profileErrorMsg),
          timestamp_ended := some now }
      else a := by
    funext a
    by_cases hid : a.id = application_id <;> simp [hid]
  simp only [updateApplication, log_event, List.map_map, hfun, hp]



lemma worker_returns_getApp (now application_id : Nat) (r : AutomationResult)
    (store : JobStore) (app : Application)
    (happ : getApp store application_id = some app)
    (hp : store.profiles ≠ []) :
    getApp (worker_function now application_id (.returns r) store) application_id =
      some (workerResultUpdate now r app) := by
  unfold getApp at happ ⊢
  cases hpr : store.profiles with
  | nil => exact absurd hpr hp
  | cons p ps =>
    unfold worker_function
    rw [happ, hpr]
    simp only [find?_log_event, find?_updateApplication _ _ _
      (fun a => processResult_id now r a), happ, Option.map_some']
    split
    · simp [workerResultUpdate, processResult, find?_log_event,
        find?_updateApplication _ _ _ (fun a => processResult_id now r a), happ]
    · split <;>
        simp [workerResultUpdate, processResult, find?_log_event,
          find?_updateApplication _ _ _ (fun a => processResult_id now r a), happ]



lemma worker_raises_getApp (now application_id : Nat) (e : String)
    (store : JobStore) (app : Application)
    (happ : getApp store application_id = some app)
    (hp : store.profiles ≠ []) :
    getApp (worker_function now application_id (.raises e) store) application_id =
      some (workerExceptionUpdate now e app) := by
  unfold getApp at happ ⊢
  cases hpr : store.profiles with
  | nil => exact absurd hpr hp
  | cons p ps =>
    unfold worker_function
    rw [happ, hpr]
    simp only [find?_log_event, find?_updateApplication, happ, Option.map_some']
    split <;> rename_i hrc <;>
      simp [workerExceptionUpdate, hrc, find?_log_event, find?_updateApplication, happ]



lemma worker_returns_logs (now application_id : Nat) (r : AutomationResult)
    (store : JobStore) (app : Application)
    (happ : getApp store application_id = some app)
    (hp : store.profiles ≠ []) :
    (worker_function now application_id (.returns r) store).logs =
      store.logs ++
        [{ application_id := application_id, timestamp := now, level := "INFO",
           message := "Initialized. About to call run_automation().",
           screenshot_path := none },
         { application_id := application_id, timestamp := now, level := "DEBUG",
           message := "WorkerFunction BEFORE run_automation.", screenshot_path := none },
         { application_id := application_id, timestamp := now, level := "DEBUG",
           message := "WorkerFunction AFTER run_automation.", screenshot_path := none },
         outcomeLog now application_id r app,
         { application_id := application_id, timestamp := now, level := "DEBUG",
           message := "WorkerFunction END.", screenshot_path := none }] := by
  unfold getApp at happ
  cases hpr : store.profiles with
  | nil => exact absurd hpr hp
  | cons p ps =>
    unfold worker_function
    rw [happ, hpr]
    simp only [find?_log_event, find?_updateApplication _ _ _
      (fun a => processResult_id now r a), happ, Option.map_some']
    split <;> rename_i h1
    · simp [outcomeLog, logs_log_event, logs_updateApplication, log_event,
        updateApplication, h1]
    · split <;> rename_i h2
      · have h3 : ¬ app.retry_count < app.max_retries := fun hc => h1 ⟨h2, hc⟩
        simp [outcomeLog, log_event, updateApplication, h1, h2, h3]
      · simp [outcomeLog, log_event, updateApplication, h1, h2]


lemma markProcessing_idem (now : Nat) (a : Application) :
    markProcessing now (markProcessing now a) = markProcessing now a := rfl

lemma markProcessing_id (now : Nat) (a : Application) :
    (markProcessing now a).id = a.id := rfl

lemma queueTasks_queue (now : Nat) (ts : List Application) (s : ManagerState) :
    (queueTasks now ts s).queue =
      s.queue ++ (ts.take (TASK_QUEUE_MAX_SIZE - s.queue.length)).map (fun t => t.id) := by
  induction ts generalizing s with
  | nil => simp [queueTasks]
  | cons t rest ih =>
    by_cases hfull : TASK_QUEUE_MAX_SIZE ≤ s.queue.length
    · simp [queueTasks, hfull, Nat.sub_eq_zero_of_le hfull]
    · have hlen : TASK_QUEUE_MAX_SIZE - s.queue.length =
          (TASK_QUEUE_MAX_SIZE - (s.queue.length + 1)) + 1 := by omega
      rw [queueTasks, if_neg hfull, ih, hlen, List.take_succ_cons]
      simp

lemma queueTasks_applications (now : Nat) (ts : List Application) (s : ManagerState) :
    (queueTasks now ts s).store.applications =
      s.store.applications.map fun a =>
        if ((ts.take (TASK_QUEUE_MAX_SIZE - s.queue.length)).map (fun t => t.id)).contains a.id
        then markProcessing now a else a := by
  induction ts generalizing s with
  | nil => simp [queueTasks]
  | cons t rest ih =>
    by_cases hfull : TASK_QUEUE_MAX_SIZE ≤ s.queue.length
    · simp [queueTasks, hfull, Nat.sub_eq_zero_of_le hfull]
    · have hlen : TASK_QUEUE_MAX_SIZE - s.queue.length =
          (TASK_QUEUE_MAX_SIZE - (s.queue.length + 1)) + 1 := by omega
      rw [queueTasks, if_neg hfull, ih, hlen, List.take_succ_cons]
      simp only [log_event, updateApplication, List.map_map, List.length_append,
        List.length_cons, List.length_nil, List.map_cons]
      congr 1
      funext a
      by_cases hid : a.id = t.id <;>
        by_cases hmem : ((rest.take (TASK_QUEUE_MAX_SIZE - (s.queue.length + 1))).map
          (fun t => t.id)).contains a.id <;>
        simp [hid, hmem, markProcessing, Function.comp]

lemma queueTasks_logs (now : Nat) (ts : List Application) (s : ManagerState) :
    (queueTasks now ts s).store.logs =
      s.store.logs ++ (ts.take (TASK_QUEUE_MAX_SIZE - s.queue.length)).flatMap
        (fun t => managerClaimLogs now t.id) := by
  induction ts generalizing s with
  | nil => simp [queueTasks]
  | cons t rest ih =>
    by_cases hfull : TASK_QUEUE_MAX_SIZE ≤ s.queue.length
    · simp [queueTasks, hfull, Nat.sub_eq_zero_of_le hfull]
    · have hlen : TASK_QUEUE_MAX_SIZE - s.queue.length =
          (TASK_QUEUE_MAX_SIZE - (s.queue.length + 1)) + 1 := by omega
      rw [queueTasks, if_neg hfull, ih, hlen, List.take_succ_cons]
      simp [log_event, updateApplication, managerClaimLogs]

lemma insertSorted_perm (a : Application) (l : List Application) :
    (insertSorted a l).Perm (a :: l) := by
  induction l with
  | nil => exact List.Perm.refl _
  | cons b rest ih =>
    by_cases h : jobLT b a = true
    · rw [insertSorted, if_pos h]
      exact (ih.cons b).trans (List.Perm.swap a b rest)
    · rw [insertSorted, if_neg h]

lemma sortJobs_perm (l : List Application) : (sortJobs l).Perm l := by
  induction l with
  | nil => exact List.Perm.refl _
  | cons a rest ih =>
    exact (insertSorted_perm a (sortJobs rest)).trans (ih.cons a)

lemma mem_sortJobs (a : Application) (l : List Application) :
    a ∈ sortJobs l ↔ a ∈ l := (sortJobs_perm l).mem_iff

lemma processResult_requeue (now : Nat) (r : AutomationResult) (a : Application)
    (hr : resultStatus r = "failed") (hlt : a.retry_count < a.max_retries) :
    (processResult now r a).status = "queued" ∧
    (processResult now r a).retry_count = a.retry_count + 1 ∧
    (processResult now r a).max_retries = a.max_retries := by
  simp [processResult, hr, hlt]

lemma processResult_final (now : Nat) (r : AutomationResult) (a : Application)
    (hr : resultStatus r = "failed") (hge : ¬ a.retry_count < a.max_retries) :
    (processResult now r a).status = "failed_final" ∧
    (processResult now r a).retry_count = a.retry_count := by
  simp [processResult, hr, hge]

lemma processResult_timestamp_ended (now : Nat) (r : AutomationResult)
    (a : Application) : (processResult now r a).timestamp_ended = some now := by
  by_cases h1 : resultStatus r = "failed" ∧ a.retry_count < a.max_retries <;>
    by_cases h2 : resultStatus r = "failed"
  all_goals simp [processResult, h1, h2]
  all_goals split <;> rfl

lemma workerResultUpdate_timestamp_ended (now : Nat) (r : AutomationResult)
    (a : Application) : (workerResultUpdate now r a).timestamp_ended = some now :=
  processResult_timestamp_ended now r a

lemma workerExceptionUpdate_timestamp_ended (now : Nat) (e : String)
    (a : Application) : (workerExceptionUpdate now e a).timestamp_ended = some now := by
  unfold workerExceptionUpdate
  split <;> rfl

lemma workerExceptionUpdate_status (now : Nat) (e : String) (a : Application) :
    (workerExceptionUpdate now e a).status = "queued" ∨
      (workerExceptionUpdate now e a).status = "failed_final" := by
  unfold workerExceptionUpdate
  split
  · exact Or.inl rfl
  · exact Or.inr rfl

lemma processResult_status_notfailed (now : Nat) (r : AutomationResult)
    (a : Application) (h : resultStatus r ≠ "failed") :
    (processResult now r a).status = resultStatus r := by
  simp [processResult, h]

lemma outcomeLog_isOutcomeEvent (now i : Nat) (r : AutomationResult)
    (a : Application) : isOutcomeEvent (outcomeLog now i r a) = true := by
  unfold outcomeLog
  split
  · rfl
  split <;> rfl

lemma countP_promotion_flatMap (now : Nat) (ts : List Application) :
    ((ts.flatMap fun t => managerClaimLogs now t.id).countP isPromotionEvent) =
      ts.length := by
  induction ts with
  | nil => rfl
  | cons t rest ih =>
    rw [List.flatMap_cons, List.countP_append, ih]
    simp [managerClaimLogs, List.countP_cons, isPromotionEvent]
    omega

lemma worker_noProfile_getApp (now application_id : Nat) (b : AdapterBehavior)
    (store : JobStore) (app : Application)
    (happ : getApp store application_id = some app)
    (hp : store.profiles = []) :
    getApp (worker_function now application_id b store) application_id =
      some { app with
        status := "failed_final",
        error_details := some profileErrorMsg,
        last_log_message := some ("[ERROR] " ++ profileErrorMsg),
        timestamp_ended := some now } := by
  rw [worker_noProfile_eq now application_id b store (by rw [happ]; rfl) hp]
  unfold getApp at happ ⊢
  dsimp only
  rw [find?_update store.applications application_id
    (fun a => { a with
      status := "failed_final",
      error_details := some profileErrorMsg,
      last_log_message := some ("[ERROR] " ++ profileErrorMsg),
      timestamp_ended := some now }) (fun a => rfl), happ]
  rfl

/-! ## Claim theorems -/

/-- C1: for a job created with `max_retries = 2` whose every adapter
invocation reports a domain failure (result status `"failed"`), the worker's
outcome handling requeues it exactly twice — each requeue setting status
`queued` and incrementing `retry_count` by one — and on the third attempt
sets status `failed_final` with `retry_count = 2`. -/
theorem C1_two_retries_then_failed_final (app : Application) (r : AutomationResult)
    (t1 t2 t3 : Nat) (h0 : app.retry_count = 0) (h2 : app.max_retries = 2)
    (hr : resultStatus r = "failed") :
    (processResult t1 r app).status = "queued" ∧
    (processResult t1 r app).retry_count = 1 ∧
    (processResult t2 r (processResult t1 r app)).status = "queued" ∧
    (processResult t2 r (processResult t1 r app)).retry_count = 2 ∧
    (processResult t3 r (processResult t2 r (processResult t1 r app))).status =
      "failed_final" ∧
    (processResult t3 r (processResult t2 r (processResult t1 r app))).retry_count =
      2 := by
  obtain ⟨s1, c1, m1⟩ := processResult_requeue t1 r app hr (by omega)
  obtain ⟨s2, c2, m2⟩ :=
    processResult_requeue t2 r (processResult t1 r app) hr (by omega)
  obtain ⟨s3, c3⟩ :=
    processResult_final t3 r (processResult t2 r (processResult t1 r app)) hr
      (by omega)
  exact ⟨s1, by omega, s2, by omega, s3, by omega⟩

/-- Witness instantiating `C1_two_retries_then_failed_final` at `sampleApp`
(three attempts at times 1, 2, 3) with the always-failing adapter result. -/
theorem C1_two_retries_then_failed_final_witness :
    (processResult 1 failedResult sampleApp).status = "queued" ∧
    (processResult 1 failedResult sampleApp).retry_count = 1 ∧
    (processResult 2 failedResult (processResult 1 failedResult sampleApp)).status =
      "queued" ∧
    (processResult 2 failedResult
      (processResult 1 failedResult sampleApp)).retry_count = 2 ∧
    (processResult 3 failedResult (processResult 2 failedResult
      (processResult 1 failedResult sampleApp))).status = "failed_final" ∧
    (processResult 3 failedResult (processResult 2 failedResult
      (processResult 1 failedResult sampleApp))).retry_count = 2 :=
  C1_two_retries_then_failed_final sampleApp failedResult 1 2 3 rfl rfl rfl

/-- C2: the claim says an adapter exception is handled with the same retry
decision as a reported failure, with `retry_count` incremented by one on a
requeue. The exception handler's requeue branch (lines 190-195 of
`task_manager.py`) contains the statement `retry_count += 1` twice, so one
exception on a fresh job with `max_retries = 2` commits `retry_count = 2`:
the retry decision (requeue, since `0 < 2`) matches, but the increment is
two, not one. -/
theorem C2_exception_double_increments_retry_count :
    sampleApp.retry_count = 0 ∧ sampleApp.max_retries = 2 ∧
    (getApp (worker_function 3 1 (.raises "kaboom") sampleStore) 1).map
      (fun a => (a.status, a.retry_count)) = some ("queued", 2) :=
  ⟨rfl, rfl, rfl⟩

/-- C3: the claim says `retry_count ≤ max_retries` holds for every committed
requeue and every `failed_final`, covering the adapter-exception branch. The
double increment of lines 192-193 violates it: an exception on a job with
`retry_count = 1`, `max_retries = 2` is requeued with `retry_count = 3`. -/
theorem C3_requeue_exceeds_max_retries :
    (getApp (worker_function 3 1 (.raises "kaboom") sampleStoreRetry1) 1).map
      (fun a => (a.status, a.retry_count, a.max_retries)) =
        some ("queued", 3, 2) ∧ ¬ (3 ≤ 2) :=
  ⟨rfl, by omega⟩

/-- C4: in every polling cycle, if the in-flight `processing` count is at or
above `MAX_WORKERS * 1.5`, or the delivery channel is at capacity, the cycle
claims zero jobs: the state (rows, events, channel) is unchanged. -/
theorem C4_backpressure_claims_nothing (now : Nat) (s : ManagerState)
    (h : TASK_QUEUE_MAX_SIZE ≤ s.queue.length ∨
      3 * MAX_WORKERS ≤
        2 * ((s.store.applications.filter fun a => a.status = "processing").length)) :
    worker_manager_cycle now s = s := by
  simp only [worker_manager_cycle]
  rw [if_neg]
  rcases h with h | h <;> omega

/-- Witness instantiating `C4_backpressure_claims_nothing` at a state whose
channel holds `TASK_QUEUE_MAX_SIZE` ids. -/
theorem C4_backpressure_claims_nothing_witness :
    TASK_QUEUE_MAX_SIZE ≤ backpressureState.queue.length ∧
    worker_manager_cycle 5 backpressureState = backpressureState :=
  ⟨by decide,
   C4_backpressure_claims_nothing 5 backpressureState (Or.inl (by decide))⟩

/-- C8: `start` on an already-running scheduler and `stop` on a stopped one
are no-ops, and a second identical `start`/`stop` immediately after the
first changes nothing. -/
theorem C8_start_stop_idempotent (s : SystemState) :
    start_task_processing_system (start_task_processing_system s) =
      start_task_processing_system s ∧
    stop_task_processing_system (stop_task_processing_system s) =
      stop_task_processing_system s ∧
    (systemRunning s → start_task_processing_system s = s) ∧
    ((s.stop_event = none ∨ s.manager_process = none) →
      stop_task_processing_system s = s) := by
  refine ⟨?_, ?_, ?_, ?_⟩
  · by_cases h : (s.manager_process.map (·.alive)).getD false = true <;>
      simp [start_task_processing_system, h]
  · by_cases h : s.stop_event = none ∨ s.manager_process = none <;>
      simp [stop_task_processing_system, h]
  · intro h
    simp [start_task_processing_system, systemRunning.eq_1 s ▸ h]
  · intro h
    simp [stop_task_processing_system, h]

/-- Witness instantiating `C8_start_stop_idempotent` at the running-system
snapshot. -/
theorem C8_start_stop_idempotent_witness :
    systemRunning runningSystem ∧
    start_task_processing_system runningSystem = runningSystem ∧
    stop_task_processing_system (stop_task_processing_system runningSystem) =
      stop_task_processing_system runningSystem :=
  ⟨by decide, (C8_start_stop_idempotent runningSystem).2.2.1 (by decide),
   (C8_start_stop_idempotent runningSystem).2.1⟩

/-- C10: when no Profile row exists, the worker commits `failed_final`
directly, with `timestamp_ended` stamped and the error recorded, appends
exactly the one ERROR event, leaves `retry_count` untouched, and the result
is independent of the adapter behaviour (the adapter is never invoked) — the
right-hand side does not mention `b` and does not touch `retry_count` or
`max_retries`. -/
theorem C10_missing_profile_terminal_without_retry (now application_id : Nat)
    (b : AdapterBehavior) (store : JobStore)
    (h : (getApp store application_id).isSome) (hp : store.profiles = []) :
    worker_function now application_id b store =
      { applications := store.applications.map fun a =>
          if a.id = application_id then
            { a with
              status := "failed_final",
              error_details := some profileErrorMsg,
              last_log_message := some ("[ERROR] " ++ profileErrorMsg),
              timestamp_ended := some now }
          else a,
        logs := store.logs ++
          [{ application_id := application_id, timestamp := now, level := "ERROR",
             message := profileErrorMsg, screenshot_path := none }],
        profiles := store.profiles } :=
  worker_noProfile_eq now application_id b store h hp

/-- Witness instantiating `C10_missing_profile_terminal_without_retry` at
`noProfileStore`. -/
theorem C10_missing_profile_terminal_without_retry_witness :
    (getApp noProfileStore 1).isSome ∧
    worker_function 7 1 (.returns failedResult) noProfileStore =
      { applications := noProfileStore.applications.map fun a =>
          if a.id = 1 then
            { a with
              status := "failed_final",
              error_details := some profileErrorMsg,
              last_log_message := some ("[ERROR] " ++ profileErrorMsg),
              timestamp_ended := some 7 }
          else a,
        logs := noProfileStore.logs ++
          [{ application_id := 1, timestamp := 7, level := "ERROR",
             message := profileErrorMsg, screenshot_path := none }],
        profiles := noProfileStore.profiles } :=
  ⟨rfl, C10_missing_profile_terminal_without_retry 7 1 (.returns failedResult)
    noProfileStore rfl rfl⟩

/-- C6 (amended): the worker stamps `timestamp_ended` with the attempt's end
time on every outcome it commits — terminal outcomes and requeues alike. So
terminal statuses always carry a non-null ended_at, but a requeued (queued)
job keeps the failed attempt's ended_at rather than having it cleared, and
ended_at being non-null does not imply a terminal status. -/
theorem C6_amended_worker_always_stamps_ended_at (now application_id : Nat)
    (b : AdapterBehavior) (store : JobStore) (app : Application)
    (happ : getApp store application_id = some app) :
    ∃ a', getApp (worker_function now application_id b store) application_id =
        some a' ∧ a'.timestamp_ended = some now := by
  by_cases hp : store.profiles = []
  · exact ⟨_, worker_noProfile_getApp now application_id b store app happ hp, rfl⟩
  · cases b with
    | returns r =>
      exact ⟨_, worker_returns_getApp now application_id r store app happ hp,
        workerResultUpdate_timestamp_ended now r app⟩
    | raises e =>
      exact ⟨_, worker_raises_getApp now application_id e store app happ hp,
        workerExceptionUpdate_timestamp_ended now e app⟩

/-- C6 claims ended_at is non-null if and only if the job's status is
terminal, the requeue clearing it. Counterexample: one reported failure with
retries left commits status `"queued"` (non-terminal) while
`timestamp_ended` is still `some 3` — line 152 stamps it and the requeue
branch (lines 154-159) never clears it. -/
theorem C6_requeued_job_keeps_ended_at :
    (getApp (worker_function 3 1 (.returns failedResult) sampleStore) 1).map
      (fun a => (a.status, a.timestamp_ended)) = some ("queued", some 3) ∧
    "queued" ≠ "pending_review" ∧ "queued" ≠ "failed_final" :=
  ⟨rfl, by decide, by decide⟩

/-- Witness instantiating `C6_amended_worker_always_stamps_ended_at` at
`sampleStore` with an adapter exception. -/
theorem C6_amended_worker_always_stamps_ended_at_witness :
    ∃ a', getApp (worker_function 3 1 (.raises "kaboom") sampleStore) 1 =
        some a' ∧ a'.timestamp_ended = some 3 :=
  C6_amended_worker_always_stamps_ended_at 3 1 (.raises "kaboom") sampleStore
    sampleApp rfl

/-- C7 (amended): the statuses the scheduler itself decides — the
dispatcher's promotion to `processing`, the missing-profile `failed_final`,
the exception handler's requeue/`failed_final`, and the handling of the two
statuses the adapter actually returns (`"failed"`, `"pending_review"`) — all
lie in the closed enumeration. (A non-`"failed"` adapter status outside the
contract is stored verbatim; see the counterexample.) -/
theorem C7_amended_status_enum (now application_id : Nat) (b : AdapterBehavior)
    (store : JobStore) (app : Application)
    (happ : getApp store application_id = some app)
    (hb : ∀ r, b = .returns r →
      resultStatus r = "failed" ∨ resultStatus r = "pending_review") :
    (∃ a', getApp (worker_function now application_id b store) application_id =
        some a' ∧ a'.status ∈ statusEnum) ∧
    ∀ (now2 : Nat) (s : ManagerState) a',
      a' ∈ (worker_manager_cycle now2 s).store.applications →
      a'.status = "processing" ∨
        ∃ a0 ∈ s.store.applications, a'.status = a0.status := by
  constructor
  · by_cases hp : store.profiles = []
    · exact ⟨_, worker_noProfile_getApp now application_id b store app happ hp,
        by simp [statusEnum]⟩
    · cases b with
      | raises e =>
        refine ⟨_, worker_raises_getApp now application_id e store app happ hp, ?_⟩
        rcases workerExceptionUpdate_status now e app with h | h <;> rw [h] <;>
          simp [statusEnum]
      | returns r =>
        refine ⟨_, worker_returns_getApp now application_id r store app happ hp, ?_⟩
        have hst : (workerResultUpdate now r app).status =
          (processResult now r app).status := rfl
        rcases hb r rfl with hr | hr
        · by_cases hlt : app.retry_count < app.max_retries
          · rw [hst, (processResult_requeue now r app hr hlt).1]
            simp [statusEnum]
          · rw [hst, (processResult_final now r app hr hlt).1]
            simp [statusEnum]
        · rw [hst, processResult_status_notfailed now r app (by simp [hr]), hr]
          simp [statusEnum]
  · intro now2 s a' hmem
    by_cases hgate : s.queue.length < TASK_QUEUE_MAX_SIZE ∧
        2 * ((s.store.applications.filter fun a =>
          a.status = "processing").length) < 3 * MAX_WORKERS
    · have hcy : worker_manager_cycle now2 s = queueTasks now2 (fetchedJobs s) s := by
        simp only [worker_manager_cycle]
        rw [if_pos hgate]
      rw [hcy, queueTasks_applications] at hmem
      obtain ⟨a0, ha0, heq⟩ := List.mem_map.mp hmem
      by_cases hc : (((fetchedJobs s).take
          (TASK_QUEUE_MAX_SIZE - s.queue.length)).map (fun t => t.id)).contains a0.id
      · rw [if_pos hc] at heq
        exact Or.inl (heq ▸ rfl)
      · rw [if_neg hc] at heq
        exact Or.inr ⟨a0, ha0, heq ▸ rfl⟩
    · have hcy : worker_manager_cycle now2 s = s := by
        simp only [worker_manager_cycle]
        rw [if_neg hgate]
      rw [hcy] at hmem
      exact Or.inr ⟨a', hmem, rfl⟩

/-- C7 claims every stored status is in the closed enumeration even for
adapter results with arbitrary or missing status fields. Counterexample: a
result dict without a "status" key is stored verbatim as the default
`"unknown_completion"` (line 144/145), which is outside the enumeration. -/
theorem C7_arbitrary_status_stored_verbatim :
    (getApp (worker_function 3 1 (.returns unknownResult) sampleStore) 1).map
      (fun a => a.status) = some "unknown_completion" ∧
    "unknown_completion" ∉ statusEnum :=
  ⟨rfl, by decide⟩

/-- Witness instantiating `C7_amended_status_enum` at `sampleStore` with a
`pending_review` adapter result. -/
theorem C7_amended_status_enum_witness :
    ∃ a', getApp (worker_function 3 1 (.returns pendingResult) sampleStore) 1 =
        some a' ∧ a'.status ∈ statusEnum :=
  (C7_amended_status_enum 3 1 (.returns pendingResult) sampleStore sampleApp rfl
    (fun r hr => by cases hr; exact Or.inr rfl)).1

/-- C5 (amended): a claiming cycle selects only rows with status `queued`, in
priority-then-age order (the claimed list is a prefix of the ordered eligible
list); whenever the channel depth is at most the pool size the selection is
limited to (pool size − depth) rows, but for depth above pool size the
Python limit `MAX_WORKERS - qsize` is negative, SQLite applies no limit, and
claiming continues until the channel fills (see the counterexample); each
claimed row is committed as `processing` with `last_attempted_at = now` and
its id pushed in claim order. -/
theorem C5_amended_cycle_claims (now : Nat) (s : ManagerState)
    (hq : s.queue.length < TASK_QUEUE_MAX_SIZE)
    (hactive : 2 * ((s.store.applications.filter fun a =>
      a.status = "processing").length) < 3 * MAX_WORKERS) :
    (∀ a ∈ claimedJobs s, a.status = "queued" ∧ a ∈ s.store.applications) ∧
    (∃ k, claimedJobs s = (eligibleJobs s).take k) ∧
    (s.queue.length ≤ MAX_WORKERS →
      (claimedJobs s).length ≤ MAX_WORKERS - s.queue.length) ∧
    (worker_manager_cycle now s).queue =
      s.queue ++ (claimedJobs s).map (fun t => t.id) ∧
    (worker_manager_cycle now s).store.applications =
      s.store.applications.map (fun a =>
        if ((claimedJobs s).map (fun t => t.id)).contains a.id
        then markProcessing now a else a) := by
  have hcy : worker_manager_cycle now s = queueTasks now (fetchedJobs s) s := by
    simp only [worker_manager_cycle]
    rw [if_pos ⟨hq, hactive⟩]
  refine ⟨?_, ?_, ?_, ?_, ?_⟩
  · intro a ha
    have h1 : a ∈ fetchedJobs s := List.take_subset _ _ ha
    have h2 : a ∈ eligibleJobs s := by
      unfold fetchedJobs sqliteLimit at h1
      split at h1
      · exact h1
      · exact List.take_subset _ _ h1
    have h3 := (mem_sortJobs a _).mp h2
    have h4 := List.mem_filter.mp h3
    exact ⟨by simpa using h4.2, h4.1⟩
  · unfold claimedJobs fetchedJobs sqliteLimit
    split
    · exact ⟨_, rfl⟩
    · rw [List.take_take]
      exact ⟨_, rfl⟩
  · intro hle
    have h1 : (fetchedJobs s).length ≤ MAX_WORKERS - s.queue.length := by
      unfold fetchedJobs sqliteLimit
      split
      · rename_i hneg
        omega
      · rename_i hpos
        rw [List.length_take]
        omega
    have h2 : (claimedJobs s).length ≤ (fetchedJobs s).length := by
      unfold claimedJobs
      rw [List.length_take]
      omega
    omega
  · rw [hcy, queueTasks_queue]
    rfl
  · rw [hcy, queueTasks_applications]
    rfl

/-- C5 claims each cycle's selection is limited to (pool size − channel
depth) rows. Counterexample: with channel depth 5 (above `MAX_WORKERS = 4`)
the gate 5 < 8 still passes, the Python limit expression is `4 - 5 = -1`,
SQLite treats a negative LIMIT as no limit, and the cycle still claims the
queued row — pushing its id and marking it `processing` although
(pool size − depth) ≤ 0. -/
theorem C5_negative_limit_still_claims :
    MAX_WORKERS ≤ overfullState.queue.length ∧
    overfullState.queue.length < TASK_QUEUE_MAX_SIZE ∧
    (worker_manager_cycle 10 overfullState).queue = [11, 12, 13, 14, 15, 1] ∧
    (worker_manager_cycle 10 overfullState).store.applications.map
      (fun a => a.status) = ["processing"] :=
  ⟨by decide, by decide, rfl, rfl⟩

/-- Witness instantiating `C5_amended_cycle_claims` at `pollState`. -/
theorem C5_amended_cycle_claims_witness :
    (worker_manager_cycle 10 pollState).queue =
      pollState.queue ++ (claimedJobs pollState).map (fun t => t.id) :=
  (C5_amended_cycle_claims 10 pollState (by decide) (by decide)).2.2.2.1

/-- C9 (amended): per committed worker outcome exactly one Event records the
status transition itself, but four diagnostic events accompany it (five
appended in total, not one); the manager appends exactly one
promotion-recording Event per job entering `processing` in a cycle. -/
theorem C9_amended_event_counts :
    (∀ (now application_id : Nat) (r : AutomationResult) (store : JobStore)
      (app : Application), getApp store application_id = some app →
      store.profiles ≠ [] →
      (((worker_function now application_id (.returns r) store).logs.drop
        store.logs.length).countP isOutcomeEvent = 1 ∧
      (worker_function now application_id (.returns r) store).logs.length =
        store.logs.length + 5)) ∧
    (∀ (now : Nat) (s : ManagerState),
      s.queue.length < TASK_QUEUE_MAX_SIZE →
      2 * ((s.store.applications.filter fun a =>
        a.status = "processing").length) < 3 * MAX_WORKERS →
      ((worker_manager_cycle now s).store.logs.drop s.store.logs.length).countP
        isPromotionEvent = (claimedJobs s).length) := by
  constructor
  · intro now application_id r store app happ hp
    rw [worker_returns_logs now application_id r store app happ hp]
    constructor
    · rw [List.drop_left]
      simp only [List.countP_cons, List.countP_nil, outcomeLog_isOutcomeEvent]
      rfl
    · rw [List.length_append]
      rfl
  · intro now s hq hactive
    have hcy : worker_manager_cycle now s = queueTasks now (fetchedJobs s) s := by
      simp only [worker_manager_cycle]
      rw [if_pos ⟨hq, hactive⟩]
    rw [hcy, queueTasks_logs, List.drop_left, countP_promotion_flatMap]
    rfl

/-- C9 claims exactly one Event row is appended per status transition. One
committed requeue outcome — a single processing→queued transition — appends
five Event rows (lines 122, 124, 128, 158, 172). -/
theorem C9_five_events_for_one_transition :
    sampleApp.status = "processing" ∧
    (getApp (worker_function 3 1 (.returns failedResult) sampleStore) 1).map
      (fun a => a.status) = some "queued" ∧
    (worker_function 3 1 (.returns failedResult) sampleStore).logs.length = 5 ∧
    (5 : Nat) ≠ 1 :=
  ⟨rfl, rfl, rfl, by decide⟩

/-- Witness instantiating `C9_amended_event_counts` at `sampleStore` (worker
half) and `pollState` (manager half). -/
theorem C9_amended_event_counts_witness :
    ((worker_function 3 1 (.returns failedResult) sampleStore).logs.drop
      sampleStore.logs.length).countP isOutcomeEvent = 1 ∧
    ((worker_manager_cycle 10 pollState).store.logs.drop
      pollState.store.logs.length).countP isPromotionEvent =
      (claimedJobs pollState).length :=
  ⟨(C9_amended_event_counts.1 3 1 failedResult sampleStore sampleApp rfl
      (by decide)).1,
   C9_amended_event_counts.2 10 pollState (by decide) (by decide)⟩

end TaskManager
